import Mathlib

set_option maxRecDepth 8000

/-!
Verification of the `packet-modern-cpp-11-14-17` demonstration programs.

The repository contains standalone educational C++ programs; each one is a
single `main` that writes fixed explanatory text to standard output, with
`#if __cplusplus >= ...` preprocessor guards selecting which demonstration
blocks are compiled in under a given `-std=` flag.

The embedding below follows the sources statement by statement:

* `00_cpp_version_check.cpp`  →  namespace `VersionCheck`
* `01_lambda_function/03_lambda_evolution_demo.cpp`  →  namespace `LambdaDemo`
* `04_lambda_replace_bind.cpp`  →  namespace `BindDemo`

A program is embedded as the ordered list of text chunks it writes (one entry
per `std::cout` statement, in source order; range-`for` print loops appear as
`List.map`), as a function of the `__cplusplus` value `cpp` fixed at
preprocessing time.  All arithmetic is on signed `int` data; every value the
programs actually compute is tiny, far from any overflow, so `Int` is used
(signed overflow would be undefined behaviour in the source anyway).
Running a program is embedded as a function on an explicit `World` state
holding everything a process could observably touch; the C++ `main` functions
take no parameters, so the operating-system supplied argument vector and
environment are extra parameters that the embedded `main` never reads.
-/

/-- The observable state outside a demonstration process: the standard input
stream, both output streams, and the file system (named contents).  Each
program is embedded as a function on this state. -/
structure World where
  stdin : List String
  stdout : String
  stderr : String
  files : List (String × String)

/-- Sequential console writing: a run of `std::cout <<` statements appends
the concatenation of its text chunks to the standard-output stream and
touches nothing else.  Every output statement in the three sources is such a
write; no other effectful operation occurs in them. -/
def runChunks (chunks : List String) (w : World) : World :=
  { w with stdout := w.stdout ++ String.join chunks }

/-- The four `__cplusplus` values produced by the `-std=c++11/14/17/20`
build targets of the repository. -/
def stdFlags : List Nat := [201103, 201402, 201703, 202002]

namespace VersionCheck

/-- Console chunks written by `main` of `00_cpp_version_check.cpp`, in source
order: the `__cplusplus` report line, then one support line per standard,
each selected by its `#if __cplusplus >= ...` guard. -/
def mainChunks (cpp : Nat) : List String :=
  ["__cplusplus value: " ++ toString cpp ++ "\n",
   if 201103 ≤ cpp then "C++11 support: YES\n" else "C++11 support: NO\n",
   if 201402 ≤ cpp then "C++14 support: YES\n" else "C++14 support: NO\n",
   if 201703 ≤ cpp then "C++17 support: YES\n" else "C++17 support: NO\n",
   if 202002 ≤ cpp then "C++20 support: YES\n" else "C++20 support: NO\n"]

/-- Entry point of `00_cpp_version_check.cpp`: ignores the argument vector
and environment (the C++ `main()` takes no parameters), writes its chunks to
standard output, and returns 0. -/
def mainRun (cpp : Nat) (_args : List String) (_env : List (String × String))
    (w : World) : World × Int :=
  (runChunks (mainChunks cpp) w, 0)

end VersionCheck

namespace LambdaDemo

/-- The local vector `data` of `demonstrate_practical_evolution`. -/
def data : List Int := [1, -2, 3, -4, 5, -6, 7, -8, 9, -10]

/-- C++11 lambda `is_positive` (also the body of the C++14 generic and the
C++20 concept-constrained `is_positive`, instantiated at `int`). -/
def is_positive (x : Int) : Bool := decide (x > 0)

/-- C++11 lambda `square` (also the C++14 generic and C++20 constrained
`square` at `int`). -/
def square (x : Int) : Int := x * x

/-- C++11 lambda `add`. -/
def add (a b : Int) : Int := a + b

/-- C++11 lambda `abs_value` (single return, deduced type). -/
def abs_value (x : Int) : Int := if x > 0 then x else -x

/-- C++11 lambda `abs_value2` (explicit `-> int`, two return statements). -/
def abs_value2 (x : Int) : Int := if x > 0 then x else -x

/-- `std::copy_if(data.begin(), data.end(), back_inserter(positives),
is_positive)`. -/
def positives : List Int := data.filter is_positive

/-- `std::transform(positives.begin(), positives.end(),
back_inserter(squared), square)`. -/
def squared : List Int := positives.map square

/-- `int sum = std::accumulate(squared.begin(), squared.end(), 0, add);` -/
def sum : Int := squared.foldl add 0

/-- A `for (int n : vec) std::cout << n << " ";` loop: one chunk per
element. -/
def printRow (vec : List Int) : List String :=
  vec.map (fun n => toString n ++ " ")

/-- The C++11 three-step pipeline (`copy_if` positives, `transform` by
`square`, `accumulate` with `add`) as a function of its input vector;
`demonstrate_practical_evolution` applies it to `data`, where it yields
`sum`. -/
def pipelineCpp11 (vec : List Int) : Int :=
  ((vec.filter is_positive).map square).foldl add 0

/-- The C++14 single-pass `std::accumulate` with the combined
`[is_positive, square]` generic lambda, as a function of its input vector
(`result` in the C++14 block, applied to `data`). -/
def resultCpp14 (vec : List Int) : Int :=
  vec.foldl (fun sum value => if is_positive value then sum + square value else sum) 0

/-- C++14 `transform_and_sum` with init capture `factor = 2`. -/
def transform_and_sum (vec : List Int) : Int :=
  let factor : Int := 2
  vec.foldl (fun acc val => acc + (if val > 0 then val * factor else 0)) 0

/-- The C++14 `abs_value` (multiple returns, deduced type). -/
def abs_value14 (x : Int) : Int := if x > 0 then x else -x

/-- C++17 constexpr lambda `process_value`. -/
def process_value (value : Int) : Int := if value > 0 then value * value else 0

/-- One step of the loop body of the C++17 lambda `get_stats`. -/
def statsStep (counts : Int × Int) (v : Int) : Int × Int :=
  if v > 0 then (counts.1 + 1, counts.2)
  else if v < 0 then (counts.1, counts.2 + 1)
  else counts

/-- C++17 lambda `get_stats`: a single loop over the vector counting
strictly positive entries in `pos_count` and strictly negative entries in
`neg_count`, returned as a pair. -/
def get_stats (vec : List Int) : Int × Int :=
  vec.foldl statsStep (0, 0)

/-- The C++17 single-pass `std::accumulate` with `process_value`
(`result` in the C++17 block, applied to `data`). -/
def resultCpp17 (vec : List Int) : Int :=
  vec.foldl (fun sum value => sum + process_value value) 0

/-- `constexpr int compile_time_result = process_value(5);` -/
def compile_time_result : Int := process_value 5

/-- C++20 template lambda `safe_processor`, instantiated at `int`: loop
accumulating `transformer(item)` over the items satisfying `predicate`. -/
def safe_processor (vec : List Int) (predicate : Int → Bool)
    (transformer : Int → Int) : Int :=
  vec.foldl (fun result item => if predicate item then result + transformer item else result) 0

/-- `result` of the C++20 block:
`safe_processor(data, is_positive, square)`. -/
def resultCpp20 : Int := safe_processor data is_positive square

/-- Console chunks written by `demonstrate_practical_evolution`, in source
order.  The three `#if __cplusplus >= ...` preprocessor guards appear as
tests on the `cpp` value; no chunk depends on `cpp` in any other way. -/
def demonstrateChunks (cpp : Nat) : List String :=
  ["=== PRACTICAL: Lambda Evolution in Data Processing ===\n",
   "Task: Process data pipeline (filter → transform → reduce)\n",
   "Input: \x7b1, -2, 3, -4, 5, -6, 7, -8, 9, -10\x7d\n\n",
   "=== C++11 Approach (Verbose) ===\n",
   "\n--- C++11: What you CAN do ---\n",
   "  Pipeline: filter positives → square → sum\n",
   "  Positive numbers: "] ++
  printRow positives ++
  ["\n  Squared: "] ++
  printRow squared ++
  ["\n  Sum: " ++ toString sum ++ "\n",
   "  Abs value demo: " ++ toString (abs_value (-5)) ++ ", " ++ toString (abs_value2 (-5)) ++ "\n",
   "  ✅ Explicit types work\n",
   "  ✅ Single-return type deduction works\n",
   "  ✅ Multiple-return needs explicit -> T\n",
   "  ✅ Separate steps work\n",
   "\n--- C++11: What you CANNOT do ---\n",
   "  // ❌ C++11: Multiple return without explicit type - ILLEGAL\n",
   "  // auto abs = [](int x) \x7b if (x > 0) return x; return -x; \x7d; // ERROR!\n",
   "  // ❌ C++11: Generic lambdas - ILLEGAL\n",
   "  // auto is_positive = [](auto x) \x7b return x > 0; \x7d; // ERROR!\n",
   "  // ❌ C++11: Init capture - ILLEGAL\n",
   "  // auto processor = [factor = 2](int x) \x7b return x * factor; \x7d; // ERROR!\n",
   "  // ❌ C++11: Constexpr - ILLEGAL\n",
   "  // constexpr auto square = [](int x) constexpr \x7b return x * x; \x7d; // ERROR!\n",
   "\n"] ++
  (if 201402 ≤ cpp then
    ["=== C++14 Approach (Generic & Flexible) ===\n",
     "\n--- C++14: NEW features that are now LEGAL ---\n",
     "  Pipeline: combined filter + transform + reduce\n",
     "  Sum of squared positives: " ++ toString (resultCpp14 data) ++ "\n",
     "  Sum of doubled positives: " ++ toString (transform_and_sum data) ++ "\n",
     "  Abs value (multi-return deduction): " ++ toString (abs_value14 (-7)) ++ "\n",
     "  ✅ NEW: Generic lambdas with auto parameters\n",
     "  ✅ NEW: Multiple-return type deduction (C++11 fix!)\n",
     "  ✅ NEW: Init capture for inline variables\n",
     "  ✅ NEW: Auto return type deduction\n",
     "\n--- C++14: What you STILL CANNOT do ---\n",
     "  // ❌ C++14: Constexpr lambdas - STILL ILLEGAL\n",
     "  // constexpr auto square = [](auto x) constexpr \x7b return x * x; \x7d; // ERROR!\n",
     "  // ❌ C++14: Structured bindings - STILL ILLEGAL (C++17 feature)\n",
     "  // auto [min, max] = some_lambda_returning_pair(); // ERROR!\n",
     "  // ❌ C++14: Template parameters - STILL ILLEGAL\n",
     "  // auto lambda = []<typename T>(T x) \x7b return x * x; \x7d; // ERROR!\n",
     "\n"]
   else
    ["=== C++14 Features Not Available ===\n",
     "Compile with -std=c++14 or later to see generic lambda features.\n\n"]) ++
  (if 201703 ≤ cpp then
    ["=== C++17 Approach (Constexpr & Performance) ===\n",
     "\n--- C++17: NEW features that are now LEGAL ---\n",
     "  Pipeline: constexpr processing for optimization\n",
     "  Sum of squared positives: " ++ toString (resultCpp17 data) ++ "\n",
     "  Compile-time demo: process_value(5) = " ++ toString compile_time_result ++ "\n",
     "  Structured binding: " ++ toString (get_stats data).1 ++ " positives, " ++
       toString (get_stats data).2 ++ " negatives\n",
     "  ✅ NEW: Constexpr lambdas\n",
     "  ✅ NEW: Compile-time computation\n",
     "  ✅ NEW: Structured bindings with lambda returns\n",
     "  ✅ NEW: Performance optimizations\n",
     "\n--- C++17: What you STILL CANNOT do ---\n",
     "  // ❌ C++17: Template parameters - STILL ILLEGAL\n",
     "  // auto lambda = []<typename T>(T x) \x7b return x * x; \x7d; // ERROR!\n",
     "  // ❌ C++17: Concepts - STILL ILLEGAL\n",
     "  // auto lambda = []<typename T>(T x) requires std::is_arithmetic_v<T> \x7b ... \x7d; // ERROR!\n",
     "\n"]
   else
    ["=== C++17 Features Not Available ===\n",
     "Compile with -std=c++17 or later to see constexpr lambda features.\n\n"]) ++
  (if 202002 ≤ cpp then
    ["=== C++20 Approach (Type-Safe & Advanced) ===\n",
     "\n--- C++20: NEW features that are now LEGAL ---\n",
     "  Pipeline: type-safe template lambda with concepts\n",
     "  Sum of squared positives: " ++ toString resultCpp20 ++ "\n",
     "  ✅ NEW: Template lambdas\n",
     "  ✅ NEW: Concepts integration\n",
     "  ✅ NEW: Type safety guarantees\n",
     "\n  // This would cause a compile error:\n",
     "  // safe_processor(std::vector<std::string>\x7b\"a\"\x7d, pred, trans); // ❌ ERROR: string not arithmetic\n",
     "\n"]
   else
    ["=== C++20 Features Not Available ===\n",
     "Compile with -std=c++20 or later to see template lambda features.\n\n"])

/-- Console chunks written by `main` of `03_lambda_evolution_demo.cpp`:
banner, the `demonstrate_practical_evolution` call, then the summary with its
three guarded blocks, then the conclusion line. -/
def mainChunks (cpp : Nat) : List String :=
  ["Lambda Evolution: Practical Applications\n",
   "=====================================\n\n"] ++
  demonstrateChunks cpp ++
  ["\n=== Lambda Evolution Summary ===\n\n",
   "C++11 - The Foundation:\n",
   "  ✅ Basic lambdas with explicit types\n",
   "  ✅ Simple captures\n",
   "  ✅ Single-return type deduction\n",
   "  ❌ No multiple-return type deduction\n",
   "  ❌ No generic lambdas\n",
   "  ❌ No init capture\n",
   "  ❌ No constexpr\n",
   "  ❌ No templates\n\n"] ++
  (if 201402 ≤ cpp then
    ["C++14 - Generic Power:\n",
     "  ✅ All C++11 features\n",
     "  ✅ NEW: Generic lambdas (auto params)\n",
     "  ✅ NEW: Multiple-return type deduction\n",
     "  ✅ NEW: Init captures\n",
     "  ❌ No constexpr\n",
     "  ❌ No structured bindings\n",
     "  ❌ No templates\n\n"]
   else []) ++
  (if 201703 ≤ cpp then
    ["C++17 - Compile-time:\n",
     "  ✅ All C++14 features\n",
     "  ✅ NEW: Constexpr lambdas\n",
     "  ✅ NEW: Structured bindings with lambda returns\n",
     "  ✅ NEW: Enhanced algorithms\n",
     "  ❌ No template parameters\n",
     "  ❌ No concepts\n\n"]
   else []) ++
  (if 202002 ≤ cpp then
    ["C++20 - Template Meta-programming:\n",
     "  ✅ All C++17 features\n",
     "  ✅ NEW: Template lambdas\n",
     "  ✅ NEW: Concepts integration\n",
     "  ✅ NEW: Pack expansion\n",
     "  ✅ NEW: Advanced type constraints\n\n"]
   else []) ++
  ["Conclusion: Each C++ version makes lambdas more powerful and elegant!\n"]

/-- Entry point of `03_lambda_evolution_demo.cpp`: ignores the argument
vector and environment, writes its chunks to standard output, and returns
0. -/
def mainRun (cpp : Nat) (_args : List String) (_env : List (String × String))
    (w : World) : World × Int :=
  (runChunks (mainChunks cpp) w, 0)

/-- The two fallback notices of each `#else` branch of
`03_lambda_evolution_demo.cpp`: the only chunks a lower standard flag prints
that a higher one does not. -/
def fallbackNotices : List String :=
  ["=== C++14 Features Not Available ===\n",
   "Compile with -std=c++14 or later to see generic lambda features.\n\n",
   "=== C++17 Features Not Available ===\n",
   "Compile with -std=c++17 or later to see constexpr lambda features.\n\n",
   "=== C++20 Features Not Available ===\n",
   "Compile with -std=c++20 or later to see template lambda features.\n\n"]

end LambdaDemo

namespace BindDemo

/-- Helper `section_header`: prints a framed section title. -/
def section_header (title : String) : String := "\n=== " ++ title ++ " ===\n"

/-- Free function `print_sum(a, b)`, embedded as the text it writes. -/
def print_sum (a b : Int) : String :=
  "print_sum(" ++ toString a ++ ", " ++ toString b ++ ") = " ++ toString (a + b) ++ "\n"

/-- Free function `multiply_and_print(a, b, c)`, embedded as the text it
writes. -/
def multiply_and_print (a b c : Int) : String :=
  "multiply_and_print(" ++ toString a ++ ", " ++ toString b ++ ", " ++ toString c ++
    ") = " ++ toString (a * b * c) ++ "\n"

/-- Member function `Foo::bar(x)` (the struct `Foo` has no data members),
embedded as the text it writes. -/
def fooBar (x : Int) : String := "Foo::bar(" ++ toString x ++ ")\n"

/-- Member function `Foo::process(a, b)`; declared in the source but never
called. -/
def fooProcess (a b : Int) : String :=
  "Foo::process(" ++ toString a ++ ", " ++ toString b ++ ") = " ++ toString (a + b) ++ "\n"

/-- Free function `add`. -/
def add (a b : Int) : Int := a + b

/-- Free function `subtract`. -/
def subtract (a b : Int) : Int := a - b

/-- `std::bind(print_sum, 2, _1)` and its C++11 lambda equivalent
`[](int x) -> void { print_sum(2, x); }`: both call `print_sum(2, x)`. -/
def bound_cpp11 (x : Int) : String := print_sum 2 x

/-- `std::bind(multiply_and_print, 2, 3, _1)` and its lambda equivalent. -/
def bound_multiply (c : Int) : String := multiply_and_print 2 3 c

/-- The local vector `v = {1, 2, 3}` iterated by the two `std::for_each`
calls. -/
def v : List Int := [1, 2, 3]

/-- `auto bound_add = std::bind(add, 10, _1);` (also stored in the
`std::function<int(int)>` wrapper `operation1`). -/
def bound_add (x : Int) : Int := add 10 x

/-- `auto lambda_subtract = [](int x){ return subtract(20, x); };` (also
stored in `operation2`). -/
def lambda_subtract (x : Int) : Int := subtract 20 x

/-- `std::bind(print_sum, _2, _1)`: reorders the two arguments, as does its
lambda equivalent `[](int x, int y) { print_sum(y, x); }`. -/
def reversed (x y : Int) : String := print_sum y x

/-- `auto bound_generic = std::bind(add, 10, _1);` of the C++14 block, and
the generic lambda `[](auto x){ return add(10, x); }`. -/
def bound_generic (x : Int) : Int := add 10 x

/-- The local vector `data = {1, 2, 3, 4, 5}` that the C++14 block moves
into `lambda_with_move`. -/
def data : List Int := [1, 2, 3, 4, 5]

/-- `lambda_with_move`: the C++14 init-capture lambda holding the moved
vector; sums `x * multiplier` over the captured elements. -/
def lambda_with_move (captured : List Int) (multiplier : Int) : Int :=
  captured.foldl (fun sum x => sum + x * multiplier) 0

/-- The moved-from state of `data` after `[v = std::move(data)]`: the
program prints its size as the demonstrated value 0, i.e. the vector is left
empty. -/
def movedData : List Int := []

/-- Function pointer `int (*func_ptr)(int, int) = &add;`. -/
def func_ptr (a b : Int) : Int := add a b

/-- `auto bind_obj = std::bind(add, 10, _1);` (later stored in the
`std::function<int(int)>` wrapper `poly_func`). -/
def bind_obj (x : Int) : Int := add 10 x

/-- `auto lambda_obj = [](int x){ return add(10, x); };` (later reassigned
into `poly_func`). -/
def lambda_obj (x : Int) : Int := add 10 x

/-- Console chunks written by `main` of `04_lambda_replace_bind.cpp`, in
source order.  The single `#if __cplusplus >= 201402L` guard appears as a
test on the `cpp` value. -/
def mainChunks (cpp : Nat) : List String :=
  [section_header ("HISTORICAL CONTEXT: Before C++11"),
   "Before C++11, partial application required:\n",
   "  - Manual functor classes (verbose)\n",
   "  - std::bind1st / std::bind2nd (limited, deprecated in C++11, removed in C++17)\n",
   "  - Boost.Bind library (popular but external dependency)\n\n",
   "Example (conceptual - won\x27t compile here):\n",
   "  // C++03: Manual functor\n",
   "  struct AddN \x7b\n",
   "      int n;\n",
   "      AddN(int val) : n(val) \x7b\x7d\n",
   "      int operator()(int x) const \x7b return x + n; \x7d\n",
   "  \x7d;\n",
   "  AddN add5(5);\n",
   "  std::transform(v.begin(), v.end(), result.begin(), add5);\n",
   section_header ("C++11: std::bind Introduction"),
   "std::bind creates a FUNCTION OBJECT (callable) by:\n",
   "  1. Binding some arguments to fixed values (partial application)\n",
   "  2. Using placeholders (_1, _2, ...) for arguments to be provided later\n",
   "  3. Reordering arguments\n\n",
   "Key insight: std::bind returns a function object, NOT a function pointer.\n",
   "It creates a callable object that can be:\n",
   "  - Stored in std::function (type-erased polymorphic wrapper)\n",
   "  - Passed to algorithms\n",
   "  - Called like a function\n\n",
   section_header ("C++11 Example: Partial Application with std::bind"),
   "--- Binding first argument of print_sum to 2 ---\n",
   "std::bind(print_sum, 2, _1): ",
   bound_cpp11 10,
   "C++11 lambda [](int x): ",
   bound_cpp11 10,
   "\nNote: Both create function objects, but lambda is clearer.\n",
   section_header ("C++11 Example: Binding Multiple Arguments"),
   "--- Binding multiple arguments ---\n",
   "std::bind(multiply_and_print, 2, 3, _1): ",
   bound_multiply 5,
   "Lambda equivalent: ",
   bound_multiply 5,
   section_header ("C++11 Example: Member Functions with std::bind"),
   "--- Binding member functions ---\n",
   "std::bind(&Foo::bar, &foo, _1):\n  "] ++
  v.map fooBar ++
  ["C++11 lambda [&foo](int x):\n  "] ++
  v.map fooBar ++
  [section_header ("std::bind and std::function: Polymorphism Concept"),
   "std::bind returns a function object with SPECIFIC type (implementation-defined).\n",
   "std::function provides TYPE ERASURE - polymorphic wrapper for ANY callable.\n\n",
   "Example: storing different callables in std::function\n\n",
   "operation1 (bound std::bind): 10 + 5 = " ++ toString (bound_add 5) ++ "\n",
   "operation2 (lambda): 20 - 5 = " ++ toString (lambda_subtract 5) ++ "\n",
   "\nKey point: std::function allows RUNTIME polymorphism of callables.\n",
   "Both std::bind results and lambdas can be stored in std::function.\n",
   "This is NOT about function pointers - it\x27s about callable objects.\n",
   section_header ("C++11: Argument Reordering with std::bind"),
   "--- std::bind can reorder arguments ---\n",
   "Original call print_sum(10, 20): ",
   print_sum 10 20,
   "Reversed bind(_2, _1)(10, 20): ",
   reversed 10 20,
   "Lambda equivalent: ",
   reversed 10 20] ++
  (if 201402 ≤ cpp then
    [section_header ("C++14: Generic Lambdas Make std::bind Nearly Obsolete"),
     "C++14 introduced GENERIC LAMBDAS with auto parameters.\n",
     "This makes lambdas more flexible than std::bind for most use cases.\n\n",
     "--- C++14: Generic lambda vs std::bind ---\n",
     "std::bind result: 10 + 5 = " ++ toString (bound_generic 5) ++ "\n",
     "C++14 generic lambda: 10 + 5 = " ++ toString (bound_generic 5) ++ "\n",
     "\nC++14 lambda advantages:\n",
     "  ✅ Auto parameters - generic without templates\n",
     "  ✅ Auto return type deduction\n",
     "  ✅ Init capture (move semantics)\n",
     "  ✅ Clearer syntax\n",
     "\n--- C++14: Init capture (impossible with std::bind) ---\n",
     "Lambda with move capture: sum * 2 = " ++ toString (lambda_with_move data 2) ++ "\n",
     "Original vector is now empty: size = " ++ toString movedData.length ++ "\n",
     "\nstd::bind CANNOT do this - it only captures by copy or reference.\n"]
   else
    [section_header ("C++14 Features Not Available"),
     "Compile with -std=c++14 or later to see generic lambda advantages.\n"]) ++
  [section_header ("Why std::bind Is Rarely Used in Modern C++ (C++14+)"),
   "Reasons to prefer lambdas over std::bind:\n\n",
   "1. READABILITY\n",
   "   - std::bind: Placeholders (_1, _2) are cryptic\n",
   "   - Lambda: Parameters are explicit and clear\n\n",
   "2. TYPE SAFETY\n",
   "   - std::bind: Complex template types, hard to debug\n",
   "   - Lambda: Compiler-friendly types, better error messages\n\n",
   "3. OVERLOAD RESOLUTION\n",
   "   - std::bind: May bind wrong overload, requires explicit casts\n",
   "   - Lambda: Normal overload resolution rules apply\n\n",
   "4. PERFORMANCE\n",
   "   - std::bind: Extra template machinery, harder to optimize\n",
   "   - Lambda: Direct inline code, easier for compiler to optimize\n\n",
   "5. MODERN FEATURES (C++14+)\n",
   "   - std::bind: No init capture, no move semantics, no constexpr\n",
   "   - Lambda: Full support for init capture, move, constexpr, etc.\n",
   section_header ("Comparison Summary: std::bind vs Lambda"),
   "┌─────────────────────────────┬────────────────────┬─────────────────────┐\n",
   "│ Feature                     │ std::bind (C++11)  │ Lambda (C++11/14+)  │\n",
   "├─────────────────────────────┼────────────────────┼─────────────────────┤\n",
   "│ Introduced                  │ C++11              │ C++11               │\n",
   "│ Readability                 │ ❌ Poor            │ ✅ Excellent        │\n",
   "│ Partial application         │ ✅ Yes             │ ✅ Yes              │\n",
   "│ Argument reordering         │ ✅ Yes             │ ✅ Yes (explicit)   │\n",
   "│ Generic parameters          │ ❌ No              │ ✅ Yes (C++14)      │\n",
   "│ Init capture / move         │ ❌ No              │ ✅ Yes (C++14)      │\n",
   "│ Overload safety             │ ❌ Fragile         │ ✅ Safe             │\n",
   "│ constexpr support           │ ❌ No              │ ✅ Yes (C++17)      │\n",
   "│ Modern status               │ ⚠️ Legacy           │ ✅ Preferred        │\n",
   "└─────────────────────────────┴────────────────────┴─────────────────────┘\n",
   section_header ("Clarification: std::bind vs Function Pointers vs Polymorphism"),
   "IMPORTANT DISTINCTIONS:\n\n",
   "1. FUNCTION POINTER:\n",
   "   - Points to a specific function in memory\n",
   "   - Type: void(*)(int) or int(*)(int, int)\n",
   "   - Cannot capture state or bind arguments\n",
   "   - Example: void (*ptr)(int) = &print_sum;  // ERROR: wrong signature\n\n",
   "2. FUNCTION OBJECT (FUNCTOR):\n",
   "   - Object with operator() defined\n",
   "   - Can capture state (member variables)\n",
   "   - std::bind returns a function object\n",
   "   - Lambdas are function objects (compiler-generated class)\n\n",
   "3. std::function (POLYMORPHIC WRAPPER):\n",
   "   - Type-erased wrapper for ANY callable (function, lambda, bind result, functor)\n",
   "   - Provides runtime polymorphism via type erasure\n",
   "   - Slight overhead (virtual dispatch-like behavior)\n",
   "   - Example: std::function<int(int)> can hold lambda OR bind result\n\n",
   "KEY INSIGHT:\n",
   "  std::bind creates a FUNCTION OBJECT (not a pointer).\n",
   "  Polymorphism comes from std::function, not from std::bind itself.\n",
   "  Both std::bind and lambdas create callable objects that can be stored in std::function.\n",
   section_header ("Example: Function Pointer vs Function Object vs std::function"),
   "Function pointer: add(3, 4) = " ++ toString (func_ptr 3 4) ++ "\n",
   "std::bind object: bind(add, 10, _1)(5) = " ++ toString (bind_obj 5) ++ "\n",
   "Lambda object: lambda(5) = " ++ toString (lambda_obj 5) ++ "\n",
   "std::function(bind): " ++ toString (bind_obj 5) ++ "\n",
   "std::function(lambda): " ++ toString (lambda_obj 5) ++ "\n",
   "\nNote: std::function adds type erasure (runtime polymorphism).\n",
   section_header ("Final Recommendation"),
   "✅ Use lambdas (C++11 basic, C++14 generic) for new code\n",
   "✅ Use std::function when you need polymorphic storage of different callables\n",
   "⚠️  Use std::bind only for maintaining legacy C++11 code\n",
   "❌ Avoid raw function pointers unless interfacing with C APIs\n\n",
   "Modern C++ idiom (C++14+):\n",
   "  auto my_callable = [captured_state](auto x) \x7b return captured_state + x; \x7d;\n",
   "  std::function<int(int)> poly_callable = my_callable;  // If polymorphism needed\n"]

/-- Entry point of `04_lambda_replace_bind.cpp`: ignores the argument vector
and environment, writes its chunks to standard output, and returns 0. -/
def mainRun (cpp : Nat) (_args : List String) (_env : List (String × String))
    (w : World) : World × Int :=
  (runChunks (mainChunks cpp) w, 0)

end BindDemo

namespace LambdaDemo

/-- Spec-side description of `demonstrate_practical_evolution` (sections 4
and 8 of the specification): once preprocessing fixes `__cplusplus`, the
function is a straight-line sequence of print statements.  These are the
print statements of the C++11 part, one constant chunk per statement (one
per iteration for the two print loops), no computation. -/
def straight_fixed : List String :=
  ["=== PRACTICAL: Lambda Evolution in Data Processing ===\n",
   "Task: Process data pipeline (filter → transform → reduce)\n",
   "Input: \x7b1, -2, 3, -4, 5, -6, 7, -8, 9, -10\x7d\n\n",
   "=== C++11 Approach (Verbose) ===\n",
   "\n--- C++11: What you CAN do ---\n",
   "  Pipeline: filter positives → square → sum\n",
   "  Positive numbers: ", "1 ", "3 ", "5 ", "7 ", "9 ",
   "\n  Squared: ", "1 ", "9 ", "25 ", "49 ", "81 ",
   "\n  Sum: 165\n",
   "  Abs value demo: 5, 5\n",
   "  ✅ Explicit types work\n",
   "  ✅ Single-return type deduction works\n",
   "  ✅ Multiple-return needs explicit -> T\n",
   "  ✅ Separate steps work\n",
   "\n--- C++11: What you CANNOT do ---\n",
   "  // ❌ C++11: Multiple return without explicit type - ILLEGAL\n",
   "  // auto abs = [](int x) \x7b if (x > 0) return x; return -x; \x7d; // ERROR!\n",
   "  // ❌ C++11: Generic lambdas - ILLEGAL\n",
   "  // auto is_positive = [](auto x) \x7b return x > 0; \x7d; // ERROR!\n",
   "  // ❌ C++11: Init capture - ILLEGAL\n",
   "  // auto processor = [factor = 2](int x) \x7b return x * factor; \x7d; // ERROR!\n",
   "  // ❌ C++11: Constexpr - ILLEGAL\n",
   "  // constexpr auto square = [](int x) constexpr \x7b return x * x; \x7d; // ERROR!\n",
   "\n"]

/-- Straight-line text of the guarded C++14 block (all values constant). -/
def straight_block14 : List String :=
  ["=== C++14 Approach (Generic & Flexible) ===\n",
   "\n--- C++14: NEW features that are now LEGAL ---\n",
   "  Pipeline: combined filter + transform + reduce\n",
   "  Sum of squared positives: 165\n",
   "  Sum of doubled positives: 50\n",
   "  Abs value (multi-return deduction): 7\n",
   "  ✅ NEW: Generic lambdas with auto parameters\n",
   "  ✅ NEW: Multiple-return type deduction (C++11 fix!)\n",
   "  ✅ NEW: Init capture for inline variables\n",
   "  ✅ NEW: Auto return type deduction\n",
   "\n--- C++14: What you STILL CANNOT do ---\n",
   "  // ❌ C++14: Constexpr lambdas - STILL ILLEGAL\n",
   "  // constexpr auto square = [](auto x) constexpr \x7b return x * x; \x7d; // ERROR!\n",
   "  // ❌ C++14: Structured bindings - STILL ILLEGAL (C++17 feature)\n",
   "  // auto [min, max] = some_lambda_returning_pair(); // ERROR!\n",
   "  // ❌ C++14: Template parameters - STILL ILLEGAL\n",
   "  // auto lambda = []<typename T>(T x) \x7b return x * x; \x7d; // ERROR!\n",
   "\n"]

/-- Straight-line text of the C++14 `#else` fallback. -/
def straight_na14 : List String :=
  ["=== C++14 Features Not Available ===\n",
   "Compile with -std=c++14 or later to see generic lambda features.\n\n"]

/-- Straight-line text of the guarded C++17 block (all values constant). -/
def straight_block17 : List String :=
  ["=== C++17 Approach (Constexpr & Performance) ===\n",
   "\n--- C++17: NEW features that are now LEGAL ---\n",
   "  Pipeline: constexpr processing for optimization\n",
   "  Sum of squared positives: 165\n",
   "  Compile-time demo: process_value(5) = 25\n",
   "  Structured binding: 5 positives, 5 negatives\n",
   "  ✅ NEW: Constexpr lambdas\n",
   "  ✅ NEW: Compile-time computation\n",
   "  ✅ NEW: Structured bindings with lambda returns\n",
   "  ✅ NEW: Performance optimizations\n",
   "\n--- C++17: What you STILL CANNOT do ---\n",
   "  // ❌ C++17: Template parameters - STILL ILLEGAL\n",
   "  // auto lambda = []<typename T>(T x) \x7b return x * x; \x7d; // ERROR!\n",
   "  // ❌ C++17: Concepts - STILL ILLEGAL\n",
   "  // auto lambda = []<typename T>(T x) requires std::is_arithmetic_v<T> \x7b ... \x7d; // ERROR!\n",
   "\n"]

/-- Straight-line text of the C++17 `#else` fallback. -/
def straight_na17 : List String :=
  ["=== C++17 Features Not Available ===\n",
   "Compile with -std=c++17 or later to see constexpr lambda features.\n\n"]

/-- Straight-line text of the guarded C++20 block (all values constant). -/
def straight_block20 : List String :=
  ["=== C++20 Approach (Type-Safe & Advanced) ===\n",
   "\n--- C++20: NEW features that are now LEGAL ---\n",
   "  Pipeline: type-safe template lambda with concepts\n",
   "  Sum of squared positives: 165\n",
   "  ✅ NEW: Template lambdas\n",
   "  ✅ NEW: Concepts integration\n",
   "  ✅ NEW: Type safety guarantees\n",
   "\n  // This would cause a compile error:\n",
   "  // safe_processor(std::vector<std::string>\x7b\"a\"\x7d, pred, trans); // ❌ ERROR: string not arithmetic\n",
   "\n"]

/-- Straight-line text of the C++20 `#else` fallback. -/
def straight_na20 : List String :=
  ["=== C++20 Features Not Available ===\n",
   "Compile with -std=c++20 or later to see template lambda features.\n\n"]

/-- Spec-side straight-line program for `demonstrate_practical_evolution`:
for each fixed `__cplusplus` value, a sequence of constant prints with no
run-time conditional branch — the only branching is the compile-time choice
of which blocks are present. -/
def straight_line_prints (cpp : Nat) : List String :=
  straight_fixed ++
  (if 201402 ≤ cpp then straight_block14 else straight_na14) ++
  (if 201703 ≤ cpp then straight_block17 else straight_na17) ++
  (if 202002 ≤ cpp then straight_block20 else straight_na20)

/-- Helper for the pipeline equivalences: the sum of `process_value` over a
list, defined by structural recursion (the common specification all three
pipeline variants are proved equal to). -/
def sumPosSq : List Int → Int
  | [] => 0
  | x :: xs => process_value x + sumPosSq xs

/-- Number of strictly positive entries of a list, as an `int`. -/
def posCount (l : List Int) : Int := ((l.filter (fun val => decide (val > 0))).length : Int)

/-- Number of strictly negative entries of a list, as an `int`. -/
def negCount (l : List Int) : Int := ((l.filter (fun val => decide (val < 0))).length : Int)

/-- Number of nonzero entries of a list, as an `int`. -/
def nonzeroCount (l : List Int) : Int := ((l.filter (fun val => decide (val ≠ 0))).length : Int)

end LambdaDemo

namespace LambdaDemo

/-- The C++14 combined accumulate equals `sumPosSq` for any start value. -/
lemma foldl_resultCpp14 (l : List Int) : ∀ s : Int,
    l.foldl (fun sum value => if is_positive value then sum + square value else sum) s
      = s + sumPosSq l := by
  induction l with
  | nil => intro s; simp [sumPosSq]
  | cons x xs ih =>
    intro s
    simp only [List.foldl_cons]
    by_cases h : x > 0
    · rw [if_pos (by simp [is_positive, h]), ih]
      simp [sumPosSq, process_value, h, square]
      ring
    · rw [if_neg (by simp [is_positive, h]), ih]
      simp [sumPosSq, process_value, h]

/-- The C++17 accumulate with `process_value` equals `sumPosSq` for any
start value. -/
lemma foldl_resultCpp17 (l : List Int) : ∀ s : Int,
    l.foldl (fun sum value => sum + process_value value) s = s + sumPosSq l := by
  induction l with
  | nil => intro s; simp [sumPosSq]
  | cons x xs ih =>
    intro s
    simp only [List.foldl_cons, ih, sumPosSq]
    ring

/-- The C++11 three-step pipeline equals `sumPosSq` for any start value of
the final accumulate. -/
lemma foldl_pipeline11 (l : List Int) : ∀ s : Int,
    ((l.filter is_positive).map square).foldl add s = s + sumPosSq l := by
  induction l with
  | nil => intro s; simp [sumPosSq]
  | cons x xs ih =>
    intro s
    by_cases h : x > 0
    · simp [List.filter_cons, is_positive, h, add, ih, sumPosSq, process_value, square]
      ring
    · simp [List.filter_cons, is_positive, h, add, ih, sumPosSq, process_value, square]

/-- Unfolding of the `get_stats` loop: starting from counters `(p, n)` it
adds the number of strictly positive and strictly negative entries. -/
lemma foldl_statsStep (l : List Int) : ∀ p n : Int,
    l.foldl statsStep (p, n) = (p + posCount l, n + negCount l) := by
  induction l with
  | nil => intro p n; simp [posCount, negCount]
  | cons x xs ih =>
    intro p n
    rcases lt_trichotomy x 0 with h | h | h
    · have hp : ¬ x > 0 := by omega
      simp only [List.foldl_cons, statsStep, if_neg hp, if_pos h, ih]
      simp [posCount, negCount, List.filter_cons, h, hp, Prod.ext_iff]
      omega
    · have hp : ¬ x > 0 := by omega
      have hn : ¬ x < 0 := by omega
      simp only [List.foldl_cons, statsStep, if_neg hp, if_neg hn, ih]
      simp [posCount, negCount, List.filter_cons, hp, hn]
    · have hn : ¬ x < 0 := by omega
      simp only [List.foldl_cons, statsStep, if_pos h, ih]
      simp [posCount, negCount, List.filter_cons, h, hn, Prod.ext_iff]
      omega

/-- An entry is counted by exactly one of the two tallies exactly when it is
nonzero. -/
lemma posCount_add_negCount (l : List Int) : posCount l + negCount l = nonzeroCount l := by
  induction l with
  | nil => simp [posCount, negCount, nonzeroCount]
  | cons x xs ih =>
    rcases lt_trichotomy x 0 with h | h | h
    · have hp : ¬ x > 0 := by omega
      have hz : x ≠ 0 := by omega
      simp [posCount, negCount, nonzeroCount, List.filter_cons, h, hp, hz] at ih ⊢
      omega
    · have hp : ¬ x > 0 := by omega
      have hn : ¬ x < 0 := by omega
      have hz : x = 0 := by omega
      simp [posCount, negCount, nonzeroCount, List.filter_cons, hp, hn, hz] at ih ⊢
      omega
    · have hn : ¬ x < 0 := by omega
      have hz : x ≠ 0 := by omega
      simp [posCount, negCount, nonzeroCount, List.filter_cons, h, hn, hz] at ih ⊢
      omega

/-- The nonzero-entry count never exceeds the length. -/
lemma nonzeroCount_le_length (l : List Int) : nonzeroCount l ≤ (l.length : Int) := by
  induction l with
  | nil => simp [nonzeroCount]
  | cons x xs ih =>
    by_cases hx : x = 0 <;>
      simp [nonzeroCount, List.filter_cons, hx] at ih ⊢ <;>
      omega

/-- A vector containing a zero has strictly fewer nonzero entries than its
size. -/
lemma nonzeroCount_lt_length : ∀ l : List Int, (0 : Int) ∈ l → nonzeroCount l < (l.length : Int) := by
  intro l
  induction l with
  | nil => intro h; cases h
  | cons x xs ih =>
    intro h0
    have hle := nonzeroCount_le_length xs
    by_cases hx : x = 0
    · simp [nonzeroCount, List.filter_cons, hx] at hle ⊢
      omega
    · have hmem : (0 : Int) ∈ xs := by
        rcases List.mem_cons.mp h0 with h | h
        · exact absurd h.symm hx
        · exact h
      have hlt := ih hmem
      simp [nonzeroCount, List.filter_cons, hx] at hlt ⊢
      omega

end LambdaDemo

/-- C1: for every `__cplusplus` value, the version-check program prints the
line `C++11 support: YES` exactly when `__cplusplus >= 201103L` and the
corresponding `NO` line otherwise — likewise for 201402L, 201703L and
202002L — and at `__cplusplus = 202002L` its output is exactly the five
documented lines starting with `__cplusplus value: 202002` (the console
text documented in the header comment of `00_cpp_version_check.cpp`, the
only program whose output the repository documents verbatim). -/
theorem c1_version_check_output :
    ∀ cpp : Nat,
      ((VersionCheck.mainChunks cpp)[1]? = some ("C++11 support: YES\n") ↔ 201103 ≤ cpp) ∧
      ((VersionCheck.mainChunks cpp)[1]? = some ("C++11 support: NO\n") ↔ cpp < 201103) ∧
      ((VersionCheck.mainChunks cpp)[2]? = some ("C++14 support: YES\n") ↔ 201402 ≤ cpp) ∧
      ((VersionCheck.mainChunks cpp)[2]? = some ("C++14 support: NO\n") ↔ cpp < 201402) ∧
      ((VersionCheck.mainChunks cpp)[3]? = some ("C++17 support: YES\n") ↔ 201703 ≤ cpp) ∧
      ((VersionCheck.mainChunks cpp)[3]? = some ("C++17 support: NO\n") ↔ cpp < 201703) ∧
      ((VersionCheck.mainChunks cpp)[4]? = some ("C++20 support: YES\n") ↔ 202002 ≤ cpp) ∧
      ((VersionCheck.mainChunks cpp)[4]? = some ("C++20 support: NO\n") ↔ cpp < 202002) ∧
      (VersionCheck.mainChunks cpp)[0]? = some ("__cplusplus value: " ++ toString cpp ++ "\n") ∧
      String.join (VersionCheck.mainChunks 202002) =
        "__cplusplus value: 202002\nC++11 support: YES\nC++14 support: YES\nC++17 support: YES\nC++20 support: YES\n" := by
  intro cpp
  refine ⟨?_, ?_, ?_, ?_, ?_, ?_, ?_, ?_, by simp [VersionCheck.mainChunks], by decide⟩
  · by_cases h : 201103 ≤ cpp
    · exact iff_of_true (by simp [VersionCheck.mainChunks, h]) h
    · exact iff_of_false (by simp [VersionCheck.mainChunks, h]) h
  · by_cases h : 201103 ≤ cpp
    · exact iff_of_false (by simp [VersionCheck.mainChunks, h]) (by omega)
    · exact iff_of_true (by simp [VersionCheck.mainChunks, h]) (by omega)
  · by_cases h : 201402 ≤ cpp
    · exact iff_of_true (by simp [VersionCheck.mainChunks, h]) h
    · exact iff_of_false (by simp [VersionCheck.mainChunks, h]) h
  · by_cases h : 201402 ≤ cpp
    · exact iff_of_false (by simp [VersionCheck.mainChunks, h]) (by omega)
    · exact iff_of_true (by simp [VersionCheck.mainChunks, h]) (by omega)
  · by_cases h : 201703 ≤ cpp
    · exact iff_of_true (by simp [VersionCheck.mainChunks, h]) h
    · exact iff_of_false (by simp [VersionCheck.mainChunks, h]) h
  · by_cases h : 201703 ≤ cpp
    · exact iff_of_false (by simp [VersionCheck.mainChunks, h]) (by omega)
    · exact iff_of_true (by simp [VersionCheck.mainChunks, h]) (by omega)
  · by_cases h : 202002 ≤ cpp
    · exact iff_of_true (by simp [VersionCheck.mainChunks, h]) h
    · exact iff_of_false (by simp [VersionCheck.mainChunks, h]) h
  · by_cases h : 202002 ≤ cpp
    · exact iff_of_false (by simp [VersionCheck.mainChunks, h]) (by omega)
    · exact iff_of_true (by simp [VersionCheck.mainChunks, h]) (by omega)

/-- C2: every demonstration program returns 0 unconditionally, for every
`__cplusplus` value (every standard flag), every argument vector and
environment, and every initial world. -/
theorem c2_exit_zero :
    ∀ (cpp : Nat) (args : List String) (env : List (String × String)) (w : World),
      (VersionCheck.mainRun cpp args env w).2 = 0 ∧
      (LambdaDemo.mainRun cpp args env w).2 = 0 ∧
      (BindDemo.mainRun cpp args env w).2 = 0 :=
  fun _ _ _ _ => ⟨rfl, rfl, rfl⟩

/-- C3: for a fixed `__cplusplus` value the programs are deterministic and
closed to their inputs: any two runs — under different argument vectors,
environments and standard-input streams — produce the same standard-output
text, namely the fixed chunk sequence of the program, appended to whatever
was on the stream before. -/
theorem c3_output_deterministic :
    ∀ (cpp : Nat) (args1 args2 : List String) (env1 env2 : List (String × String))
      (stdin1 stdin2 : List String) (w : World),
      (VersionCheck.mainRun cpp args1 env1 { w with stdin := stdin1 }).1.stdout =
        (VersionCheck.mainRun cpp args2 env2 { w with stdin := stdin2 }).1.stdout ∧
      (LambdaDemo.mainRun cpp args1 env1 { w with stdin := stdin1 }).1.stdout =
        (LambdaDemo.mainRun cpp args2 env2 { w with stdin := stdin2 }).1.stdout ∧
      (BindDemo.mainRun cpp args1 env1 { w with stdin := stdin1 }).1.stdout =
        (BindDemo.mainRun cpp args2 env2 { w with stdin := stdin2 }).1.stdout ∧
      (LambdaDemo.mainRun cpp args1 env1 w).1.stdout =
        w.stdout ++ String.join (LambdaDemo.mainChunks cpp) :=
  fun _ _ _ _ _ _ _ _ => ⟨rfl, rfl, rfl, rfl⟩

/-- C4 counterexample: output does NOT grow monotonically with the standard
flag.  At `__cplusplus = 201103L` the lambda-evolution demo prints the
fallback notice `=== C++14 Features Not Available ===`, which is not printed
at `__cplusplus = 201402L` although `201103 ≤ 201402`. -/
theorem c4_nonmonotone_counterexample :
    ("=== C++14 Features Not Available ===\n" ∈ LambdaDemo.mainChunks 201103) ∧
    ("=== C++14 Features Not Available ===\n" ∉ LambdaDemo.mainChunks 201402) ∧
    (201103 : Nat) ≤ 201402 := by
  decide

/-- C4 (amended): compiling under a higher standard flag activates more
guarded output, but the `#else` fallback notices are replaced rather than
kept: for any two build flags `s1 ≤ s2`, every chunk the demo prints at `s1`
other than a fallback notice is also printed at `s2`. -/
theorem c4_guarded_output_monotone :
    ∀ s1 ∈ stdFlags, ∀ s2 ∈ stdFlags, s1 ≤ s2 →
      ∀ c ∈ LambdaDemo.mainChunks s1, c ∉ LambdaDemo.fallbackNotices →
        c ∈ LambdaDemo.mainChunks s2 := by
  decide

/-- Witness for C4 at a concrete instance: the C++14 approach header printed
at 201402 is also printed at 201703. -/
theorem c4_guarded_output_monotone_witness :
    "=== C++14 Approach (Generic & Flexible) ===\n" ∈ LambdaDemo.mainChunks 201703 :=
  c4_guarded_output_monotone 201402 (by decide) 201703 (by decide) (by decide)
    ("=== C++14 Approach (Generic & Flexible) ===\n") (by decide) (by decide)

/-- C5: the data vectors are locals constructed fresh from fixed literals on
every call, and no state outlives a single run: running a program twice in
sequence just appends its fixed text twice, and a run changes nothing in the
world except the standard-output stream (so nothing carries over between
calls). -/
theorem c5_local_vector_state :
    LambdaDemo.data = [1, -2, 3, -4, 5, -6, 7, -8, 9, -10] ∧
    BindDemo.v = [1, 2, 3] ∧
    BindDemo.data = [1, 2, 3, 4, 5] ∧
    ∀ (cpp : Nat) (args : List String) (env : List (String × String)) (w : World),
      (LambdaDemo.mainRun cpp args env (LambdaDemo.mainRun cpp args env w).1).1.stdout =
        w.stdout ++ String.join (LambdaDemo.mainChunks cpp) ++
          String.join (LambdaDemo.mainChunks cpp) ∧
      (BindDemo.mainRun cpp args env (BindDemo.mainRun cpp args env w).1).1.stdout =
        w.stdout ++ String.join (BindDemo.mainChunks cpp) ++
          String.join (BindDemo.mainChunks cpp) ∧
      (LambdaDemo.mainRun cpp args env w).1.stdin = w.stdin ∧
      (LambdaDemo.mainRun cpp args env w).1.files = w.files :=
  ⟨rfl, rfl, rfl, fun _ _ _ _ => ⟨rfl, rfl, rfl, rfl⟩⟩

/-- C6: once preprocessing fixes `__cplusplus`, `demonstrate_practical_evolution`
is extensionally a straight-line sequence of constant print statements — its
chunk sequence equals the spec-side `straight_line_prints`, whose entries are
all string literals — and the one internally branching helper, `get_stats`,
is a constant `(5, 5)` on the fixed data. -/
theorem c6_straight_line :
    ∀ cpp : Nat,
      LambdaDemo.demonstrateChunks cpp = LambdaDemo.straight_line_prints cpp ∧
      LambdaDemo.get_stats LambdaDemo.data = (5, 5) := by
  intro cpp
  refine ⟨?_, by decide⟩
  by_cases h14 : 201402 ≤ cpp <;> by_cases h17 : 201703 ≤ cpp <;> by_cases h20 : 202002 ≤ cpp <;>
    first
      | omega
      | (simp only [LambdaDemo.demonstrateChunks, LambdaDemo.straight_line_prints, h14, h17, h20,
          if_true, if_false, ite_true, ite_false]
         decide)

/-- C7: the programs perform no observable effect other than appending their
text to standard output: a run leaves the input stream, the error stream and
the file system exactly as they were, and extends the output stream by the
program text. -/
theorem c7_stdout_only :
    ∀ (cpp : Nat) (args : List String) (env : List (String × String)) (w : World),
      (VersionCheck.mainRun cpp args env w).1 =
        { w with stdout := w.stdout ++ String.join (VersionCheck.mainChunks cpp) } ∧
      (LambdaDemo.mainRun cpp args env w).1 =
        { w with stdout := w.stdout ++ String.join (LambdaDemo.mainChunks cpp) } ∧
      (BindDemo.mainRun cpp args env w).1 =
        { w with stdout := w.stdout ++ String.join (BindDemo.mainChunks cpp) } :=
  fun _ _ _ _ => ⟨rfl, rfl, rfl⟩

/-- C8: no run aborts early: under every standard flag each embedded program
is a total function that completes its full demonstration sequence — the
version check always prints all five lines, the two demos always reach their
final print statement — and every run returns 0. -/
theorem c8_total_run :
    ∀ (cpp : Nat) (args : List String) (env : List (String × String)) (w : World),
      (VersionCheck.mainChunks cpp).length = 5 ∧
      (LambdaDemo.mainChunks cpp).getLast? =
        some ("Conclusion: Each C++ version makes lambdas more powerful and elegant!\n") ∧
      (BindDemo.mainChunks cpp).getLast? =
        some ("  std::function<int(int)> poly_callable = my_callable;  // If polymorphism needed\n") ∧
      (VersionCheck.mainRun cpp args env w).2 = 0 ∧
      (LambdaDemo.mainRun cpp args env w).2 = 0 ∧
      (BindDemo.mainRun cpp args env w).2 = 0 := by
  intro cpp args env w
  refine ⟨rfl, ?_, ?_, rfl, rfl, rfl⟩
  · by_cases h14 : 201402 ≤ cpp <;> by_cases h17 : 201703 ≤ cpp <;> by_cases h20 : 202002 ≤ cpp <;>
      first
        | omega
        | (simp only [LambdaDemo.mainChunks, LambdaDemo.demonstrateChunks, h14, h17, h20,
            if_true, if_false, ite_true, ite_false]
           decide)
  · by_cases h14 : 201402 ≤ cpp <;>
      simp only [BindDemo.mainChunks, h14, if_true, if_false, ite_true, ite_false] <;>
      decide

/-- C9: the C++14 single-pass accumulate with the combined
`[is_positive, square]` lambda computes the same value as the C++11
three-step pipeline for every input vector, the C++17 single-pass accumulate
with `process_value` computes that same value as well, and on the fixed data
all three (and the `sum` actually printed) equal 165. -/
theorem c9_pipeline_equivalence :
    (∀ vec : List Int,
        LambdaDemo.pipelineCpp11 vec = LambdaDemo.resultCpp14 vec ∧
        LambdaDemo.resultCpp14 vec = LambdaDemo.resultCpp17 vec) ∧
    LambdaDemo.pipelineCpp11 LambdaDemo.data = 165 ∧
    LambdaDemo.resultCpp14 LambdaDemo.data = 165 ∧
    LambdaDemo.resultCpp17 LambdaDemo.data = 165 ∧
    LambdaDemo.sum = 165 := by
  refine ⟨fun vec => ⟨?_, ?_⟩, by decide, by decide, by decide, by decide⟩
  · unfold LambdaDemo.pipelineCpp11 LambdaDemo.resultCpp14
    rw [LambdaDemo.foldl_pipeline11 vec 0, LambdaDemo.foldl_resultCpp14 vec 0]
  · unfold LambdaDemo.resultCpp14 LambdaDemo.resultCpp17
    rw [LambdaDemo.foldl_resultCpp14 vec 0, LambdaDemo.foldl_resultCpp17 vec 0]

/-- C10: `get_stats` counts an element as positive exactly when it is `> 0`
and as negative exactly when it is `< 0`; zeros are counted in neither
tally, so for every vector `pos_count + neg_count` is the number of nonzero
elements, which is strictly below the vector size whenever the vector
contains a zero. -/
theorem c10_get_stats_counts :
    ∀ vec : List Int,
      (LambdaDemo.get_stats vec).1 = LambdaDemo.posCount vec ∧
      (LambdaDemo.get_stats vec).2 = LambdaDemo.negCount vec ∧
      (LambdaDemo.get_stats vec).1 + (LambdaDemo.get_stats vec).2 =
        LambdaDemo.nonzeroCount vec ∧
      ((0 : Int) ∈ vec →
        (LambdaDemo.get_stats vec).1 + (LambdaDemo.get_stats vec).2 < (vec.length : Int)) := by
  intro vec
  unfold LambdaDemo.get_stats
  rw [LambdaDemo.foldl_statsStep vec 0 0]
  refine ⟨by simp, by simp, ?_, ?_⟩
  · simp only [zero_add]
    exact LambdaDemo.posCount_add_negCount vec
  · intro h0
    simp only [zero_add]
    rw [LambdaDemo.posCount_add_negCount vec]
    exact LambdaDemo.nonzeroCount_lt_length vec h0

/-- Witness for C10 at the concrete vector `[1, 0, -2]`, which contains a
zero: the two tallies sum to strictly less than the size 3. -/
theorem c10_get_stats_counts_witness :
    ((0 : Int) ∈ ([1, 0, -2] : List Int)) ∧
    (LambdaDemo.get_stats [1, 0, -2]).1 + (LambdaDemo.get_stats [1, 0, -2]).2 <
      (([1, 0, -2] : List Int).length : Int) :=
  ⟨by decide, (c10_get_stats_counts [1, 0, -2]).2.2.2 (by decide)⟩
